import Mathlib

/-!
Verification of the `MovieObject.bdmv` navigation-command codec of the
`bd-region` utility.

The `bluray` namespace is a shallow embedding of `src/bluray/mod.rs`:
bytes are `Nat` values below 256, byte buffers are `List Nat`, machine
integers are `Nat` with explicit masks, fallible paths return
`Except`/`Option`, and the panicking narrowing conversions are modelled
separately as `Option`-returning checks.

The `spec` namespace models the parts of the crate that `src/main.rs`
calls but whose definitions are not present under `src/`
(`NavigationCommand::from_bytes`, the raw-bytes field, the encoder):
those definitions carry a `Modelled from the spec:` doc comment.
-/

namespace bluray

/-- Branch operations of the navigation-command instruction set
(`enum Branch`, mod.rs). -/
inductive Branch where
  | Nop | GoTo | Break
  | JumpObject | JumpTitle | CallObject | CallTitle | Resume
  | PlayList | PlayItem | PlayMark | Terminate | LinkItem | LinkMark
deriving DecidableEq, Repr

/-- Compare operations (`enum Compare`, mod.rs). -/
inductive Compare where
  | Bc | Eq | Ne | Ge | Gt | Le | Lt
deriving DecidableEq, Repr

/-- Set operations (`enum Set`, mod.rs). -/
inductive Set where
  | Move | Swap | Add | Sub | Mul | Div | Mod | Rnd
  | And | Or | Xor | Bitset | Bitclr | ShiftLeft | ShiftRight
  | SetStream | SetNVTimer | ButtonPage | EnableButton | DisableButton
  | SetSecondaryStream | PopupOff | StillOn | StillOff
deriving DecidableEq, Repr

/-- Instruction families (`enum Command`, mod.rs). -/
inductive Command where
  | Branch : bluray.Branch → Command
  | Compare : bluray.Compare → Command
  | Set : bluray.Set → Command
deriving DecidableEq, Repr

/-- Operand arity of an instruction (`enum OperandCount`, mod.rs). -/
inductive OperandCount where
  | None | DestinationOnly | DestinationAndSource
deriving DecidableEq, Repr

/-- An operand: an immediate constant, a general-purpose register,
a player-specific register, or an out-of-range register reference
(`enum Operand`, mod.rs).  The payloads are the `u32`/`u16`/`u8`
values of the source, modelled as `Nat`. -/
inductive Operand where
  | Immediate (v : Nat)
  | Gpr (v : Nat)
  | Psr (v : Nat)
  | Unknown (v : Nat)
deriving DecidableEq, Repr

/-- Decode failures (`enum OpenError`, mod.rs).  The `std::io::Error`
payload of `IoError` is not representable and no claim concerns it, so
only the offending path is kept. -/
inductive OpenError where
  | IoError (path : String)
  | NoMagicBytes
  | BadMagicBytes (actual : List Nat)
  | NoExtensionStartAddress
  | NoReservedBytes
  | MovieObjectsNoLength
  | MovieObjectsNoReservedBytes
  | MovieObjectsNoCount
  | MovieObjectNoFlags
  | NavigationCommandsNoCount
  | NavigationCommandTruncated (i j : Nat)
  | NavigationCommandInvalid (i j : Nat) (bytes : List Nat)
  | NavigationCommandBadOperandCount (i j v : Nat)
deriving DecidableEq, Repr

/-- A decoded instruction (`struct NavigationCommand`, mod.rs). -/
structure NavigationCommand where
  command : Command
  operand_count : OperandCount
  destination : Operand
  source : Operand
deriving DecidableEq, Repr

/-- A decoded movie object (`struct MovieObject`, mod.rs). -/
structure MovieObject where
  resume_intention : Bool
  menu_call_mask : Bool
  title_search_mask : Bool
  navigation_commands : List NavigationCommand
deriving DecidableEq, Repr

/-- The magic signature `b"MOBJ0200"` (`MOVIE_OBJECT_HEADER`, mod.rs). -/
def MOVIE_OBJECT_HEADER : List Nat := [0x4d, 0x4f, 0x42, 0x4a, 0x30, 0x32, 0x30, 0x30]

/-- Big-endian interpretation of a byte list (`u32::from_be_bytes` /
`u16::from_be_bytes`). -/
def from_be_bytes (l : List Nat) : Nat :=
  l.foldl (fun acc b => acc * 256 + b) 0

/-- `slice::split_first_chunk::<N>`: the first `n` bytes and the rest,
or `none` when fewer than `n` bytes remain. -/
def split_first_chunk (n : Nat) (l : List Nat) : Option (List Nat × List Nat) :=
  if n ≤ l.length then some (l.take n, l.drop n) else none

/-- `Operand::new_register` (mod.rs:221-234).  `num & !0x80000000` on a
`u32` is `num &&& 0x7fffffff`.  The two `try_into().unwrap()` narrowing
conversions are the identity on `Nat`; `new_register_checked` below
models their fallibility explicitly. -/
def Operand.new_register (num : Nat) : Operand :=
  if num &&& 0x80000000 ≠ 0 then
    let num := num &&& 0x7fffffff
    if num < 128 then Operand.Psr num else Operand.Unknown num
  else if num < 4096 then Operand.Gpr num else Operand.Unknown num

/-- `u32::try_into::<u8>`: succeeds exactly below 256. -/
def u8_try_from (n : Nat) : Option Nat := if n < 256 then some n else none

/-- `u32::try_into::<u16>`: succeeds exactly below 65536. -/
def u16_try_from (n : Nat) : Option Nat := if n < 65536 then some n else none

/-- `Operand::new_register` with the two `try_into().unwrap()` calls
modelled as fallible narrowing: a `none` result would be a panic of the
Rust function. -/
def Operand.new_register_checked (num : Nat) : Option Operand :=
  if num &&& 0x80000000 ≠ 0 then
    let num := num &&& 0x7fffffff
    if num < 128 then (u8_try_from num).map Operand.Psr
    else some (Operand.Unknown num)
  else if num < 4096 then (u16_try_from num).map Operand.Gpr
  else some (Operand.Unknown num)

/-- The opcode classification table (`decode_command`, mod.rs:369-434),
written as the same first-match sequence of arms. -/
def decode_command (command_group command_sub_group branch_option compare_option
    setOption : Nat) : Option Command :=
  if command_group = 0 ∧ command_sub_group = 0 ∧ branch_option = 0 then some (.Branch .Nop)
  else if command_group = 0 ∧ command_sub_group = 0 ∧ branch_option = 1 then some (.Branch .GoTo)
  else if command_group = 0 ∧ command_sub_group = 0 ∧ branch_option = 2 then some (.Branch .Break)
  else if command_group = 0 ∧ command_sub_group = 1 ∧ branch_option = 0 then some (.Branch .JumpObject)
  else if command_group = 0 ∧ command_sub_group = 1 ∧ branch_option = 1 then some (.Branch .JumpTitle)
  else if command_group = 0 ∧ command_sub_group = 1 ∧ branch_option = 2 then some (.Branch .CallObject)
  else if command_group = 0 ∧ command_sub_group = 1 ∧ branch_option = 3 then some (.Branch .CallTitle)
  else if command_group = 0 ∧ command_sub_group = 1 ∧ branch_option = 4 then some (.Branch .Resume)
  else if command_group = 0 ∧ command_sub_group = 2 ∧ branch_option = 0 then some (.Branch .PlayList)
  else if command_group = 0 ∧ command_sub_group = 2 ∧ branch_option = 1 then some (.Branch .PlayItem)
  else if command_group = 0 ∧ command_sub_group = 2 ∧ branch_option = 2 then some (.Branch .PlayMark)
  else if command_group = 0 ∧ command_sub_group = 2 ∧ branch_option = 3 then some (.Branch .Terminate)
  else if command_group = 0 ∧ command_sub_group = 2 ∧ branch_option = 4 then some (.Branch .LinkItem)
  else if command_group = 0 ∧ command_sub_group = 2 ∧ branch_option = 5 then some (.Branch .LinkMark)
  else if command_group = 1 ∧ compare_option = 1 then some (.Compare .Bc)
  else if command_group = 1 ∧ compare_option = 2 then some (.Compare .Eq)
  else if command_group = 1 ∧ compare_option = 3 then some (.Compare .Ne)
  else if command_group = 1 ∧ compare_option = 4 then some (.Compare .Ge)
  else if command_group = 1 ∧ compare_option = 5 then some (.Compare .Gt)
  else if command_group = 1 ∧ compare_option = 6 then some (.Compare .Le)
  else if command_group = 1 ∧ compare_option = 7 then some (.Compare .Lt)
  else if command_group = 2 ∧ command_sub_group = 0 ∧ setOption = 0x1 then some (.Set .Move)
  else if command_group = 2 ∧ command_sub_group = 0 ∧ setOption = 0x2 then some (.Set .Swap)
  else if command_group = 2 ∧ command_sub_group = 0 ∧ setOption = 0x3 then some (.Set .Add)
  else if command_group = 2 ∧ command_sub_group = 0 ∧ setOption = 0x4 then some (.Set .Sub)
  else if command_group = 2 ∧ command_sub_group = 0 ∧ setOption = 0x5 then some (.Set .Mul)
  else if command_group = 2 ∧ command_sub_group = 0 ∧ setOption = 0x6 then some (.Set .Div)
  else if command_group = 2 ∧ command_sub_group = 0 ∧ setOption = 0x7 then some (.Set .Mod)
  else if command_group = 2 ∧ command_sub_group = 0 ∧ setOption = 0x8 then some (.Set .Rnd)
  else if command_group = 2 ∧ command_sub_group = 0 ∧ setOption = 0x9 then some (.Set .And)
  else if command_group = 2 ∧ command_sub_group = 0 ∧ setOption = 0xa then some (.Set .Or)
  else if command_group = 2 ∧ command_sub_group = 0 ∧ setOption = 0xb then some (.Set .Xor)
  else if command_group = 2 ∧ command_sub_group = 0 ∧ setOption = 0xc then some (.Set .Bitset)
  else if command_group = 2 ∧ command_sub_group = 0 ∧ setOption = 0xd then some (.Set .Bitclr)
  else if command_group = 2 ∧ command_sub_group = 0 ∧ setOption = 0xe then some (.Set .ShiftLeft)
  else if command_group = 2 ∧ command_sub_group = 0 ∧ setOption = 0xf then some (.Set .ShiftRight)
  else if command_group = 2 ∧ command_sub_group = 1 ∧ setOption = 0x1 then some (.Set .SetStream)
  else if command_group = 2 ∧ command_sub_group = 1 ∧ setOption = 0x2 then some (.Set .SetNVTimer)
  else if command_group = 2 ∧ command_sub_group = 1 ∧ setOption = 0x3 then some (.Set .ButtonPage)
  else if command_group = 2 ∧ command_sub_group = 1 ∧ setOption = 0x4 then some (.Set .EnableButton)
  else if command_group = 2 ∧ command_sub_group = 1 ∧ setOption = 0x5 then some (.Set .DisableButton)
  else if command_group = 2 ∧ command_sub_group = 1 ∧ setOption = 0x6 then some (.Set .SetSecondaryStream)
  else if command_group = 2 ∧ command_sub_group = 1 ∧ setOption = 0x7 then some (.Set .PopupOff)
  else if command_group = 2 ∧ command_sub_group = 1 ∧ setOption = 0x8 then some (.Set .StillOn)
  else if command_group = 2 ∧ command_sub_group = 1 ∧ setOption = 0x9 then some (.Set .StillOff)
  else none

/-- The inline operand-arity match of `BluRay::open` (mod.rs:305-314). -/
def decodeOperandCount (i j v : Nat) : Except OpenError OperandCount :=
  if v = 0 then .ok .None
  else if v = 1 then .ok .DestinationOnly
  else if v = 2 then .ok .DestinationAndSource
  else .error (.NavigationCommandBadOperandCount i j v)

/-- The per-record body of the decode loop of `BluRay::open`
(mod.rs:301-352), for the record at movie object `i`, navigation
command `j`.  Note mod.rs:302 reads the source operand from
`bytes[4..8]`, the same slice as the destination, not from
`bytes[8..12]`. -/
def decodeRecord (i j : Nat) (bytes : List Nat) : Except OpenError NavigationCommand :=
  let destination := from_be_bytes ((bytes.drop 4).take 4)
  let source := from_be_bytes ((bytes.drop 4).take 4)
  match decodeOperandCount i j ((bytes.getD 0 0 >>> 5) &&& 0x7) with
  | .error e => .error e
  | .ok operand_count =>
    let command_group := (bytes.getD 0 0 >>> 3) &&& 0x3
    let command_sub_group := bytes.getD 0 0 &&& 0x7
    let destination_is_immediate_value := bytes.getD 1 0 &&& 0x80 ≠ 0
    let source_is_immediate_value := bytes.getD 1 0 &&& 0x40 ≠ 0
    let branch_option := bytes.getD 1 0 &&& 0xf
    let compare_option := bytes.getD 2 0 &&& 0xf
    let setOption := bytes.getD 3 0 &&& 0x1f
    match decode_command command_group command_sub_group branch_option compare_option
        setOption with
    | none => .error (.NavigationCommandInvalid i j bytes)
    | some command =>
      .ok { command := command
            operand_count := operand_count
            destination :=
              if destination_is_immediate_value then .Immediate destination
              else Operand.new_register destination
            source :=
              if source_is_immediate_value then .Immediate source
              else Operand.new_register source }

/-- The inner `for j in 0..navigation_commands_count` loop of
`BluRay::open` (mod.rs:294-353): `count` iterations remain and `j` is
the current command index.  Returns the decoded commands and the
unparsed remainder of the buffer. -/
def parseNavigationCommands (i j count : Nat) (unparsed : List Nat) :
    Except OpenError (List NavigationCommand × List Nat) :=
  match count with
  | 0 => .ok ([], unparsed)
  | count + 1 =>
    match split_first_chunk 12 unparsed with
    | none => .error (.NavigationCommandTruncated i j)
    | some (bytes, rest) =>
      match decodeRecord i j bytes with
      | .error e => .error e
      | .ok cmd =>
        match parseNavigationCommands i (j + 1) count rest with
        | .error e => .error e
        | .ok (cmds, rest') => .ok (cmd :: cmds, rest')

/-- The outer `for i in 0..movie_objects_count` loop of `BluRay::open`
(mod.rs:276-361): `count` iterations remain and `i` is the current
movie-object index. -/
def parseMovieObjects (i count : Nat) (unparsed : List Nat) :
    Except OpenError (List MovieObject × List Nat) :=
  match count with
  | 0 => .ok ([], unparsed)
  | count + 1 =>
    match split_first_chunk 2 unparsed with
    | none => .error .MovieObjectNoFlags
    | some (flag_bytes, rest) =>
      let flags := from_be_bytes flag_bytes
      match split_first_chunk 2 rest with
      | none => .error .NavigationCommandsNoCount
      | some (count_bytes, rest) =>
        match parseNavigationCommands i 0 (from_be_bytes count_bytes) rest with
        | .error e => .error e
        | .ok (navigation_commands, rest) =>
          match parseMovieObjects (i + 1) count rest with
          | .error e => .error e
          | .ok (objs, rest') =>
            .ok ({ resume_intention := flags &&& 0x8000 != 0
                   menu_call_mask := flags &&& 0x4000 != 0
                   title_search_mask := flags &&& 0x2000 != 0
                   navigation_commands := navigation_commands } :: objs, rest')

/-- `BluRay::open` (mod.rs:238-366), starting from the in-memory file
contents (the `File::open`/`read_to_end` I/O prefix is outside the
embedding).  The movie-objects length field is read and ignored, as in
the source; leftover bytes after the declared object count are ignored,
as in the source. -/
def open' (contents : List Nat) : Except OpenError (List MovieObject) :=
  match split_first_chunk 8 contents with
  | none => .error .NoMagicBytes
  | some (magic_bytes, remainder) =>
    if magic_bytes = MOVIE_OBJECT_HEADER then
      match split_first_chunk 4 remainder with
      | none => .error .NoExtensionStartAddress
      | some (_, remainder) =>
        match split_first_chunk 28 remainder with
        | none => .error .NoReservedBytes
        | some (_, remainder) =>
          match split_first_chunk 4 remainder with
          | none => .error .MovieObjectsNoLength
          | some (_, remainder) =>
            match split_first_chunk 4 remainder with
            | none => .error .MovieObjectsNoReservedBytes
            | some (_, remainder) =>
              match split_first_chunk 2 remainder with
              | none => .error .MovieObjectsNoCount
              | some (count_bytes, remainder) =>
                match parseMovieObjects 0 (from_be_bytes count_bytes) remainder with
                | .error e => .error e
                | .ok (movie_objects, _) => .ok movie_objects
    else .error (.BadMagicBytes magic_bytes)

end bluray

namespace spec

/-- Modelled from the spec: the navigation-command type used by
`src/main.rs` (`command.raw_bytes`, `NavigationCommand::from_bytes`),
whose definition is not under `src/`.  Per §4.3 and the design notes,
the structured instruction carries the original 12 raw bytes alongside
the decoded fields. -/
structure NavigationCommand where
  raw_bytes : List Nat
  command : bluray.Command
  operand_count : bluray.OperandCount
  destination : bluray.Operand
  source : bluray.Operand
deriving DecidableEq, Repr

/-- Modelled from the spec: `NavigationCommand::from_bytes`, called by
`src/main.rs` but not defined under `src/`.  Decodes exactly 12 bytes
per §4.2: operand arity from bits 5-7 of byte 0 (only codes 0/1/2
decode), opcode classification by the fixed lookup of §4.2 step 4
(shared with the table embedded from mod.rs), destination from bytes
4-7 and source from bytes 8-11 as 32-bit big-endian values (§3),
is-immediate flags in bits 7 and 6 of byte 1, register classification
per the rule of §3.  The raw bytes are kept verbatim. -/
def NavigationCommand.from_bytes (bytes : List Nat) : Option NavigationCommand :=
  if bytes.length = 12 then
    let v := (bytes.getD 0 0 >>> 5) &&& 0x7
    let oc : Option bluray.OperandCount :=
      if v = 0 then some .None
      else if v = 1 then some .DestinationOnly
      else if v = 2 then some .DestinationAndSource
      else none
    match oc with
    | none => none
    | some operand_count =>
      match bluray.decode_command ((bytes.getD 0 0 >>> 3) &&& 0x3) (bytes.getD 0 0 &&& 0x7)
          (bytes.getD 1 0 &&& 0xf) (bytes.getD 2 0 &&& 0xf) (bytes.getD 3 0 &&& 0x1f) with
      | none => none
      | some command =>
        let destination := bluray.from_be_bytes ((bytes.drop 4).take 4)
        let source := bluray.from_be_bytes ((bytes.drop 8).take 4)
        some { raw_bytes := bytes
               command := command
               operand_count := operand_count
               destination :=
                 if bytes.getD 1 0 &&& 0x80 ≠ 0 then .Immediate destination
                 else bluray.Operand.new_register destination
               source :=
                 if bytes.getD 1 0 &&& 0x40 ≠ 0 then .Immediate source
                 else bluray.Operand.new_register source }
  else none

/-- Modelled from the spec: the Instruction Encoder path used by the
Patch Engine (`MovieObjectFile::serialize` is not under `src/`).  Per
§4.3 and the design notes, an untouched or rebuilt record is emitted
through the raw passthrough: serialization writes the instruction's 12
raw bytes verbatim. -/
def NavigationCommand.encode (c : NavigationCommand) : List Nat := c.raw_bytes

/-- Modelled from the spec: the movie-object type used by
`src/main.rs` (`MovieObject { header, navigation_commands }`), whose
definition is not under `src/`.  The per-object header (flag word and
count) is opaque here. -/
structure MovieObject where
  header : List Nat
  navigation_commands : List NavigationCommand
deriving DecidableEq, Repr

/-- `NOP_COMMAND_BYTES` (main.rs:158): the all-zero 12-byte record. -/
def NOP_COMMAND_BYTES : List Nat := List.replicate 12 0

/-- The decoded all-zero record: Branch-Nop with zero operands (both
operand slots hold register reference 0, unused at arity `None`). -/
def nopCommand : NavigationCommand :=
  { raw_bytes := NOP_COMMAND_BYTES
    command := .Branch .Nop
    operand_count := .None
    destination := .Gpr 0
    source := .Gpr 0 }

/-- The PSR20 constant-override arm of `RemoveArgs::exec`
(main.rs:188-195): when the instruction has arity
`DestinationAndSource` and its source is `Psr(20)`, set the
source-is-immediate flag (bit 6 of byte 1), overwrite bytes 8..12 with
the replacement region bytes, and re-decode; other instructions pass
through unchanged.  The `unwrap` on the re-decode is modelled by the
`Option` result. -/
def regionPatchCommand (region_bytes : List Nat) (command : NavigationCommand) :
    Option NavigationCommand :=
  match command.operand_count, command.source with
  | .DestinationAndSource, .Psr 20 =>
    let raw_bytes := command.raw_bytes.set 1 (command.raw_bytes.getD 1 0 ||| 0x40)
    let raw_bytes := raw_bytes.take 8 ++ region_bytes ++ raw_bytes.drop 12
    NavigationCommand.from_bytes raw_bytes
  | _, _ => some command

/-- The no-op patch of `RemoveArgs::exec` (main.rs:169-177), applied in
isolation per §4.5/§8: the command at index `c` (with `ci` the index of
the head of `cmds`) is replaced by the decoded all-zero record; the
`unwrap` is modelled by `getD` (the decode of the all-zero record
succeeds, see the no-op patch theorem). -/
def nopPatchCommands (c ci : Nat) (cmds : List NavigationCommand) :
    List NavigationCommand :=
  match cmds with
  | [] => []
  | command :: rest =>
    (if ci = c then (NavigationCommand.from_bytes NOP_COMMAND_BYTES).getD command
     else command) :: nopPatchCommands c (ci + 1) rest

/-- The no-op patch across the object table (main.rs:159-177) for the
single edit location `(o, c)`: object `o` has its command `c` replaced;
all other objects, and all per-object headers, are untouched. -/
def nopPatchObjects (o c oi : Nat) (objs : List MovieObject) : List MovieObject :=
  match objs with
  | [] => []
  | obj :: rest =>
    (if oi = o then
      { obj with navigation_commands := nopPatchCommands c 0 obj.navigation_commands }
     else obj) :: nopPatchObjects o c (oi + 1) rest

/-- The command stored at object index `oi`, command index `ci`. -/
def commandAt (objs : List MovieObject) (oi ci : Nat) : Option NavigationCommand :=
  match objs[oi]? with
  | none => none
  | some obj => obj.navigation_commands[ci]?

end spec

/-! Helper lemmas. -/

theorem split_chunk_of_lt {n : Nat} {l : List Nat} (h : l.length < n) :
    bluray.split_first_chunk n l = none := by
  unfold bluray.split_first_chunk
  rw [if_neg (by omega)]

theorem split_chunk_of_le {n : Nat} {l : List Nat} (h : n ≤ l.length) :
    bluray.split_first_chunk n l = some (l.take n, l.drop n) := by
  unfold bluray.split_first_chunk
  rw [if_pos h]

set_option maxRecDepth 4096 in
theorem byte_or64_masks (b : Nat) (hb : b < 256) :
    (b ||| 64) &&& 15 = b &&& 15 ∧ (b ||| 64) &&& 128 = b &&& 128
      ∧ (b ||| 64) &&& 64 = 64 := by
  have key : ∀ x : Fin 256, (x.val ||| 64) &&& 15 = x.val &&& 15
      ∧ (x.val ||| 64) &&& 128 = x.val &&& 128 ∧ (x.val ||| 64) &&& 64 = 64 := by decide
  exact key ⟨b, hb⟩

/-! Claim theorems. -/

/-- C1: For every 12-byte record that decodes successfully, the claim
says the destination operand value comes from bytes 4-7 and the source
operand value from bytes 8-11, both big-endian.  The code instead reads
the source from bytes 4-7 as well (mod.rs:302): on the record
`50 00 00 01 00 00 00 05 80 00 00 14` the decoder yields source
`Gpr 5` (the destination bytes), although bytes 8-11 hold `0x80000014`,
which classifies as `Psr 20`. -/
theorem source_operand_copies_destination_bytes :
    bluray.decodeRecord 0 0 [0x50, 0x00, 0x00, 0x01, 0x00, 0x00, 0x00, 0x05, 0x80, 0x00, 0x00, 0x14]
      = .ok { command := .Set .Move
              operand_count := .DestinationAndSource
              destination := .Gpr 5
              source := .Gpr 5 }
  ∧ bluray.Operand.new_register
      (bluray.from_be_bytes
        (([0x50, 0x00, 0x00, 0x01, 0x00, 0x00, 0x00, 0x05, 0x80, 0x00, 0x00, 0x14].drop 8).take 4))
      = .Psr 20 :=
  ⟨rfl, rfl⟩

/-- C5: classification of a 32-bit register operand value: top bit set
and remaining 31 bits below 128 gives that PSR; top bit set and
remaining bits at least 128 gives Unknown; top bit clear and value
below 4096 gives that GPR; otherwise Unknown. -/
theorem register_value_classification (num : Nat) (h32 : num < 4294967296) :
    (num &&& 0x80000000 ≠ 0 → num &&& 0x7fffffff < 128 →
      bluray.Operand.new_register num = .Psr (num &&& 0x7fffffff))
  ∧ (num &&& 0x80000000 ≠ 0 → 128 ≤ num &&& 0x7fffffff →
      bluray.Operand.new_register num = .Unknown (num &&& 0x7fffffff))
  ∧ (num &&& 0x80000000 = 0 → num < 4096 → bluray.Operand.new_register num = .Gpr num)
  ∧ (num &&& 0x80000000 = 0 → 4096 ≤ num → bluray.Operand.new_register num = .Unknown num) := by
  refine ⟨fun h1 h2 => ?_, fun h1 h2 => ?_, fun h1 h2 => ?_, fun h1 h2 => ?_⟩
  · simp [bluray.Operand.new_register, h1, h2]
  · have hn : ¬(num &&& 0x7fffffff < 128) := by omega
    simp [bluray.Operand.new_register, h1, hn]
  · simp [bluray.Operand.new_register, h1, h2]
  · have hn : ¬(num < 4096) := by omega
    simp [bluray.Operand.new_register, h1, hn]

/-- Witness for C5 at the concrete value `0x80000014`. -/
theorem register_value_classification_witness :
    bluray.Operand.new_register 0x80000014 = .Psr (0x80000014 &&& 0x7fffffff) :=
  (register_value_classification 0x80000014 (by decide)).1 (by decide) (by decide)

/-- C10: `Operand::new_register` is total: the checked embedding (with
both `try_into` narrowings fallible) always returns the value of the
total embedding, and every `Psr` result is at most 127 and every `Gpr`
result at most 4095. -/
theorem new_register_total_and_bounded (num : Nat) :
    bluray.Operand.new_register_checked num = some (bluray.Operand.new_register num)
  ∧ (∀ k, bluray.Operand.new_register num = .Psr k → k ≤ 127)
  ∧ (∀ k, bluray.Operand.new_register num = .Gpr k → k ≤ 4095) := by
  by_cases h1 : num &&& 0x80000000 ≠ 0
  · by_cases h2 : num &&& 0x7fffffff < 128
    · have h3 : num &&& 0x7fffffff < 256 := by omega
      refine ⟨?_, ?_, ?_⟩
      · simp [bluray.Operand.new_register_checked, bluray.Operand.new_register, h1, h2,
          bluray.u8_try_from, h3]
      · intro k hk
        simp [bluray.Operand.new_register, h1, h2] at hk
        omega
      · intro k hk
        simp [bluray.Operand.new_register, h1, h2] at hk
    · refine ⟨?_, ?_, ?_⟩
      · simp [bluray.Operand.new_register_checked, bluray.Operand.new_register, h1, h2]
      · intro k hk
        simp [bluray.Operand.new_register, h1, h2] at hk
      · intro k hk
        simp [bluray.Operand.new_register, h1, h2] at hk
  · by_cases h2 : num < 4096
    · have h3 : num < 65536 := by omega
      refine ⟨?_, ?_, ?_⟩
      · simp [bluray.Operand.new_register_checked, bluray.Operand.new_register, h1, h2,
          bluray.u16_try_from, h3]
      · intro k hk
        simp [bluray.Operand.new_register, h1, h2] at hk
      · intro k hk
        simp [bluray.Operand.new_register, h1, h2] at hk
        omega
    · refine ⟨?_, ?_, ?_⟩
      · simp [bluray.Operand.new_register_checked, bluray.Operand.new_register, h1, h2]
      · intro k hk
        simp [bluray.Operand.new_register, h1, h2] at hk
      · intro k hk
        simp [bluray.Operand.new_register, h1, h2] at hk

/-- Witness for C10 at the concrete value `0x80000014`. -/
theorem new_register_total_and_bounded_witness :
    bluray.Operand.new_register_checked 0x80000014
      = some (bluray.Operand.new_register 0x80000014)
  ∧ (20 : Nat) ≤ 127 :=
  ⟨(new_register_total_and_bounded 0x80000014).1,
   (new_register_total_and_bounded 0x80000014).2.1 20 (by decide)⟩

/-- C7: for any buffer of at least 8 bytes whose first 8 bytes are not
the magic constant, decoding fails with `BadMagicBytes` carrying
exactly those 8 bytes; the result does not depend on anything after
the first 8 bytes (the statement holds for every suffix). -/
theorem bad_magic_stops_decode (contents : List Nat)
    (h8 : 8 ≤ contents.length) (hne : contents.take 8 ≠ bluray.MOVIE_OBJECT_HEADER) :
    bluray.open' contents = .error (.BadMagicBytes (contents.take 8)) := by
  unfold bluray.open'
  rw [split_chunk_of_le h8]
  simp [hne]

/-- Witness for C7 on the malformed magic `XXXX0200`. -/
theorem bad_magic_stops_decode_witness :
    bluray.open' ([0x58, 0x58, 0x58, 0x58, 0x30, 0x32, 0x30, 0x30] ++ List.replicate 40 0)
      = .error (.BadMagicBytes
          (([0x58, 0x58, 0x58, 0x58, 0x30, 0x32, 0x30, 0x30] ++ List.replicate 40 0).take 8)) :=
  bad_magic_stops_decode _ (by decide) (by decide)

/-- C6: the 3-bit operand-arity code decodes successfully exactly for
codes 0, 1, 2 (mapping to None, DestinationOnly, DestinationAndSource),
and every code of 3 or more (in particular the 3-bit codes 3-7) makes
the record decode fail with the bad-operand-count error carrying the
code. -/
theorem arity_code_totality :
    (∀ i j v oc, bluray.decodeOperandCount i j v = .ok oc ↔
        (v = 0 ∧ oc = .None) ∨ (v = 1 ∧ oc = .DestinationOnly)
          ∨ (v = 2 ∧ oc = .DestinationAndSource))
  ∧ (∀ i j v, 3 ≤ v →
      bluray.decodeOperandCount i j v = .error (.NavigationCommandBadOperandCount i j v))
  ∧ (∀ i j b0 b1 b2 b3 b4 b5 b6 b7 b8 b9 b10 b11, 3 ≤ (b0 >>> 5) &&& 0x7 →
      bluray.decodeRecord i j [b0, b1, b2, b3, b4, b5, b6, b7, b8, b9, b10, b11]
        = .error (.NavigationCommandBadOperandCount i j ((b0 >>> 5) &&& 0x7))) := by
  refine ⟨?_, ?_, ?_⟩
  · intro i j v oc
    unfold bluray.decodeOperandCount
    split_ifs with h0 h1 h2 <;> simp_all [eq_comm]
  · intro i j v h
    unfold bluray.decodeOperandCount
    split_ifs with h0 h1 h2 <;> first | rfl | omega
  · intro i j b0 b1 b2 b3 b4 b5 b6 b7 b8 b9 b10 b11 h
    have hoc : bluray.decodeOperandCount i j ((b0 >>> 5) &&& 0x7)
        = .error (.NavigationCommandBadOperandCount i j ((b0 >>> 5) &&& 0x7)) := by
      unfold bluray.decodeOperandCount
      split_ifs with h0 h1 h2 <;> first | rfl | omega
    simp [bluray.decodeRecord, hoc]

/-- Witness for C6: code 3 (byte 0 = `0x60`) fails with the
bad-operand-count error. -/
theorem arity_code_totality_witness :
    bluray.decodeOperandCount 0 0 3 = .error (.NavigationCommandBadOperandCount 0 0 3)
  ∧ bluray.decodeRecord 0 0 [0x60, 0, 0, 0, 0, 0, 0, 0, 0, 0, 0, 0]
      = .error (.NavigationCommandBadOperandCount 0 0 ((0x60 >>> 5) &&& 0x7)) :=
  ⟨arity_code_totality.2.1 0 0 3 (by decide),
   arity_code_totality.2.2 0 0 0x60 0 0 0 0 0 0 0 0 0 0 0 (by decide)⟩

/-- C9 (amended): a shortfall while reading a 12-byte record body fails
with `NavigationCommandTruncated` carrying the object and command
indices, but a shortfall at a per-object flag word fails with
`MovieObjectNoFlags` and one at a per-object command count with
`NavigationCommandsNoCount`, neither of which carries the object
index. -/
theorem truncation_shortfall_errors (i j count : Nat) (u2 u12 u4 : List Nat)
    (h2 : u2.length < 2) (h12 : u12.length < 12)
    (h4a : 2 ≤ u4.length) (h4b : u4.length < 4) :
    bluray.parseMovieObjects i (count + 1) u2 = .error .MovieObjectNoFlags
  ∧ bluray.parseNavigationCommands i j (count + 1) u12
      = .error (.NavigationCommandTruncated i j)
  ∧ bluray.parseMovieObjects i (count + 1) u4 = .error .NavigationCommandsNoCount := by
  refine ⟨?_, ?_, ?_⟩
  · simp [bluray.parseMovieObjects, split_chunk_of_lt h2]
  · simp [bluray.parseNavigationCommands, split_chunk_of_lt h12]
  · have hd : (u4.drop 2).length < 2 := by simp; omega
    simp [bluray.parseMovieObjects, split_chunk_of_le h4a, split_chunk_of_lt hd]

/-- Witness for C9 (amended) on empty and 2-byte buffers. -/
theorem truncation_shortfall_errors_witness :
    bluray.parseMovieObjects 0 1 [] = .error .MovieObjectNoFlags
  ∧ bluray.parseNavigationCommands 0 0 1 [] = .error (.NavigationCommandTruncated 0 0)
  ∧ bluray.parseMovieObjects 0 1 [0, 0] = .error .NavigationCommandsNoCount :=
  truncation_shortfall_errors 0 0 0 [] [] [0, 0] (by decide) (by decide) (by decide) (by decide)

/-- C9 counterexample: the claim says every out-of-data failure
identifies the object index that ran out, but a flag-word shortfall at
object 0 (declared count 1, empty table) and one at object 1 (declared
count 2, table holding one complete empty object) produce the very same
error value `MovieObjectNoFlags`, which carries no index. -/
theorem flag_shortfall_error_has_no_index :
    bluray.open' (bluray.MOVIE_OBJECT_HEADER ++ List.replicate 40 0 ++ [0, 1])
      = .error .MovieObjectNoFlags
  ∧ bluray.open' (bluray.MOVIE_OBJECT_HEADER ++ List.replicate 40 0 ++ [0, 2] ++ [0, 0, 0, 0])
      = .error .MovieObjectNoFlags :=
  ⟨rfl, rfl⟩

/-- C4: classification is a fixed lookup on the five extracted fields,
with wildcard matching on the fields a family ignores (Branch rows
ignore the compare and set options, Compare rows ignore the sub-group
and the branch and set options, Set rows ignore the branch and compare
options); when no row matches, the record decode fails with
`NavigationCommandInvalid` carrying the full 12 raw bytes and the
object and command indices, and when a row matches the decoded
instruction carries exactly the looked-up command. -/
theorem opcode_lookup_wildcards_and_invalid :
    (∀ sg bo co so co' so',
        bluray.decode_command 0 sg bo co so = bluray.decode_command 0 sg bo co' so')
  ∧ (∀ sg sg' bo bo' co so so',
        bluray.decode_command 1 sg bo co so = bluray.decode_command 1 sg' bo' co so')
  ∧ (∀ sg bo bo' co co' so,
        bluray.decode_command 2 sg bo co so = bluray.decode_command 2 sg bo' co' so)
  ∧ (∀ i j b0 b1 b2 b3 b4 b5 b6 b7 b8 b9 b10 b11,
        (b0 >>> 5) &&& 0x7 ≤ 2 →
        bluray.decode_command ((b0 >>> 3) &&& 0x3) (b0 &&& 0x7) (b1 &&& 0xf) (b2 &&& 0xf)
            (b3 &&& 0x1f) = none →
        bluray.decodeRecord i j [b0, b1, b2, b3, b4, b5, b6, b7, b8, b9, b10, b11]
          = .error (.NavigationCommandInvalid i j [b0, b1, b2, b3, b4, b5, b6, b7, b8, b9, b10, b11]))
  ∧ (∀ i j b0 b1 b2 b3 b4 b5 b6 b7 b8 b9 b10 b11 cmd,
        (b0 >>> 5) &&& 0x7 ≤ 2 →
        bluray.decode_command ((b0 >>> 3) &&& 0x3) (b0 &&& 0x7) (b1 &&& 0xf) (b2 &&& 0xf)
            (b3 &&& 0x1f) = some cmd →
        ∃ nc, bluray.decodeRecord i j [b0, b1, b2, b3, b4, b5, b6, b7, b8, b9, b10, b11] = .ok nc
          ∧ nc.command = cmd) := by
  refine ⟨?_, ?_, ?_, ?_, ?_⟩
  · intro sg bo co so co' so'
    simp [bluray.decode_command]
  · intro sg sg' bo bo' co so so'
    simp [bluray.decode_command]
  · intro sg bo bo' co co' so
    simp [bluray.decode_command]
  · intro i j b0 b1 b2 b3 b4 b5 b6 b7 b8 b9 b10 b11 ha hdc
    have h3 : (b0 >>> 5) &&& 0x7 = 0 ∨ (b0 >>> 5) &&& 0x7 = 1 ∨ (b0 >>> 5) &&& 0x7 = 2 := by
      omega
    rcases h3 with hv | hv | hv <;>
      simp [bluray.decodeRecord, bluray.decodeOperandCount, hv, hdc]
  · intro i j b0 b1 b2 b3 b4 b5 b6 b7 b8 b9 b10 b11 cmd ha hdc
    have h3 : (b0 >>> 5) &&& 0x7 = 0 ∨ (b0 >>> 5) &&& 0x7 = 1 ∨ (b0 >>> 5) &&& 0x7 = 2 := by
      omega
    rcases h3 with hv | hv | hv <;>
      simp [bluray.decodeRecord, bluray.decodeOperandCount, hv, hdc]

/-- Witness for C4: sub-group 7 in the Branch group matches no row and
fails with `NavigationCommandInvalid`; the all-zero record matches the
Branch-Nop row. -/
theorem opcode_lookup_wildcards_and_invalid_witness :
    bluray.decodeRecord 0 0 [7, 0, 0, 0, 0, 0, 0, 0, 0, 0, 0, 0]
      = .error (.NavigationCommandInvalid 0 0 [7, 0, 0, 0, 0, 0, 0, 0, 0, 0, 0, 0])
  ∧ ∃ nc, bluray.decodeRecord 0 0 [0, 0, 0, 0, 0, 0, 0, 0, 0, 0, 0, 0] = .ok nc
      ∧ nc.command = .Branch .Nop :=
  ⟨opcode_lookup_wildcards_and_invalid.2.2.2.1 0 0 7 0 0 0 0 0 0 0 0 0 0 0
      (by decide) (by decide),
   opcode_lookup_wildcards_and_invalid.2.2.2.2 0 0 0 0 0 0 0 0 0 0 0 0 0 0 (.Branch .Nop)
      (by decide) (by decide)⟩

theorem from_bytes_fields {bytes : List Nat} {nc : spec.NavigationCommand}
    (h : spec.NavigationCommand.from_bytes bytes = some nc) :
    nc.raw_bytes = bytes
  ∧ bluray.decode_command ((bytes.getD 0 0 >>> 3) &&& 0x3) (bytes.getD 0 0 &&& 0x7)
      (bytes.getD 1 0 &&& 0xf) (bytes.getD 2 0 &&& 0xf) (bytes.getD 3 0 &&& 0x1f)
      = some nc.command
  ∧ (nc.operand_count = .DestinationAndSource → (bytes.getD 0 0 >>> 5) &&& 0x7 = 2)
  ∧ nc.destination = (if bytes.getD 1 0 &&& 0x80 ≠ 0
      then .Immediate (bluray.from_be_bytes ((bytes.drop 4).take 4))
      else bluray.Operand.new_register (bluray.from_be_bytes ((bytes.drop 4).take 4)))
  ∧ nc.source = (if bytes.getD 1 0 &&& 0x40 ≠ 0
      then .Immediate (bluray.from_be_bytes ((bytes.drop 8).take 4))
      else bluray.Operand.new_register (bluray.from_be_bytes ((bytes.drop 8).take 4)))
  ∧ bytes.length = 12 := by
  unfold spec.NavigationCommand.from_bytes at h
  by_cases hlen : bytes.length = 12
  swap
  · rw [if_neg hlen] at h
    cases h
  rw [if_pos hlen] at h
  by_cases h0 : (bytes.getD 0 0 >>> 5) &&& 0x7 = 0
  · simp only [h0, if_pos] at h
    cases hdc : bluray.decode_command ((bytes.getD 0 0 >>> 3) &&& 0x3) (bytes.getD 0 0 &&& 0x7)
        (bytes.getD 1 0 &&& 0xf) (bytes.getD 2 0 &&& 0xf) (bytes.getD 3 0 &&& 0x1f) with
    | none => rw [hdc] at h; cases h
    | some cc =>
      rw [hdc] at h
      injection h with h
      subst h
      refine ⟨rfl, by simpa using hdc, ?_, rfl, rfl, hlen⟩
      intro hx
      cases hx
  · by_cases h1 : (bytes.getD 0 0 >>> 5) &&& 0x7 = 1
    · simp only [h1, h0, if_neg, if_pos] at h
      cases hdc : bluray.decode_command ((bytes.getD 0 0 >>> 3) &&& 0x3) (bytes.getD 0 0 &&& 0x7)
          (bytes.getD 1 0 &&& 0xf) (bytes.getD 2 0 &&& 0xf) (bytes.getD 3 0 &&& 0x1f) with
      | none => rw [hdc] at h; cases h
      | some cc =>
        rw [hdc] at h
        injection h with h
        subst h
        refine ⟨rfl, by simpa using hdc, ?_, rfl, rfl, hlen⟩
        intro hx
        cases hx
    · by_cases h2 : (bytes.getD 0 0 >>> 5) &&& 0x7 = 2
      · simp only [h2, h1, h0, if_neg, if_pos] at h
        cases hdc : bluray.decode_command ((bytes.getD 0 0 >>> 3) &&& 0x3) (bytes.getD 0 0 &&& 0x7)
            (bytes.getD 1 0 &&& 0xf) (bytes.getD 2 0 &&& 0xf) (bytes.getD 3 0 &&& 0x1f) with
        | none => rw [hdc] at h; cases h
        | some cc =>
          rw [hdc] at h
          injection h with h
          subst h
          exact ⟨rfl, by simpa using hdc, fun _ => h2, rfl, rfl, hlen⟩
      · simp only [h0, h1, h2, if_neg] at h
        cases h

theorem from_bytes_build (bytes : List Nat) (hlen : bytes.length = 12)
    (hv : (bytes.getD 0 0 >>> 5) &&& 0x7 = 2) (cc : bluray.Command)
    (hdc : bluray.decode_command ((bytes.getD 0 0 >>> 3) &&& 0x3) (bytes.getD 0 0 &&& 0x7)
      (bytes.getD 1 0 &&& 0xf) (bytes.getD 2 0 &&& 0xf) (bytes.getD 3 0 &&& 0x1f) = some cc) :
    spec.NavigationCommand.from_bytes bytes = some
      { raw_bytes := bytes
        command := cc
        operand_count := .DestinationAndSource
        destination := if bytes.getD 1 0 &&& 0x80 ≠ 0
          then .Immediate (bluray.from_be_bytes ((bytes.drop 4).take 4))
          else bluray.Operand.new_register (bluray.from_be_bytes ((bytes.drop 4).take 4))
        source := if bytes.getD 1 0 &&& 0x40 ≠ 0
          then .Immediate (bluray.from_be_bytes ((bytes.drop 8).take 4))
          else bluray.Operand.new_register (bluray.from_be_bytes ((bytes.drop 8).take 4)) } := by
  unfold spec.NavigationCommand.from_bytes
  rw [if_pos hlen]
  simp only [hv, hdc]
  norm_num

/-- C3: round-trip of the codec.  Encoding any successfully decoded
12-byte record reproduces the original bytes, and decoding the encoding
of any constructible instruction (one obtainable by decoding) yields
that instruction again. -/
theorem raw_round_trip (x : List Nat) (nc : spec.NavigationCommand)
    (h : spec.NavigationCommand.from_bytes x = some nc) :
    spec.NavigationCommand.encode nc = x
  ∧ spec.NavigationCommand.from_bytes (spec.NavigationCommand.encode nc) = some nc := by
  have hraw : nc.raw_bytes = x := (from_bytes_fields h).1
  refine ⟨?_, ?_⟩
  · rw [spec.NavigationCommand.encode, hraw]
  · rw [spec.NavigationCommand.encode, hraw]
    exact h

/-- Witness for C3 on the record `20 40 00 00 00 00 00 13 00 00 00 00`
from the spec's end-to-end example. -/
theorem raw_round_trip_witness :
    spec.NavigationCommand.encode
        { raw_bytes := [0x20, 0x40, 0, 0, 0, 0, 0, 0x13, 0, 0, 0, 0]
          command := .Branch .Nop
          operand_count := .DestinationOnly
          destination := .Gpr 0x13
          source := .Immediate 0 }
      = [0x20, 0x40, 0, 0, 0, 0, 0, 0x13, 0, 0, 0, 0]
  ∧ spec.NavigationCommand.from_bytes
        (spec.NavigationCommand.encode
          { raw_bytes := [0x20, 0x40, 0, 0, 0, 0, 0, 0x13, 0, 0, 0, 0]
            command := .Branch .Nop
            operand_count := .DestinationOnly
            destination := .Gpr 0x13
            source := .Immediate 0 })
      = some
        { raw_bytes := [0x20, 0x40, 0, 0, 0, 0, 0, 0x13, 0, 0, 0, 0]
          command := .Branch .Nop
          operand_count := .DestinationOnly
          destination := .Gpr 0x13
          source := .Immediate 0 } :=
  raw_round_trip [0x20, 0x40, 0, 0, 0, 0, 0, 0x13, 0, 0, 0, 0] _ (by decide)

set_option maxRecDepth 8192 in
/-- C2: on any decoded instruction with arity `DestinationAndSource`
and source operand `Psr 20`, the constant-override patch with
replacement bytes `[0x00, 0x00, 0x00, 0x01]` re-decodes successfully
to an instruction whose source operand is `Immediate 1` and whose
destination operand, opcode classification and operand arity are
unchanged. -/
theorem region_override_yields_immediate_source
    (b0 b1 b2 b3 b4 b5 b6 b7 b8 b9 b10 b11 : Nat) (hb1 : b1 < 256)
    (cmd : spec.NavigationCommand)
    (h : spec.NavigationCommand.from_bytes [b0, b1, b2, b3, b4, b5, b6, b7, b8, b9, b10, b11]
      = some cmd)
    (hoc : cmd.operand_count = .DestinationAndSource)
    (hsrc : cmd.source = .Psr 20) :
    ∃ cmd', spec.regionPatchCommand [0, 0, 0, 1] cmd = some cmd'
      ∧ cmd'.source = .Immediate 1
      ∧ cmd'.destination = cmd.destination
      ∧ cmd'.command = cmd.command
      ∧ cmd'.operand_count = cmd.operand_count := by
  obtain ⟨hraw, hdc, harity, hdest, hsrceq, hlen⟩ := from_bytes_fields h
  have hm := byte_or64_masks b1 hb1
  have hv : (b0 >>> 5) &&& 0x7 = 2 := by simpa using harity hoc
  have hdc' : bluray.decode_command ((b0 >>> 3) &&& 0x3) (b0 &&& 0x7) (b1 &&& 0xf)
      (b2 &&& 0xf) (b3 &&& 0x1f) = some cmd.command := by simpa using hdc
  have hbuild := from_bytes_build [b0, b1 ||| 0x40, b2, b3, b4, b5, b6, b7, 0, 0, 0, 1]
      (by simp) (by simpa using hv) cmd.command
      (by simpa [hm.1] using hdc')
  have hpatch : spec.regionPatchCommand [0, 0, 0, 1] cmd
      = spec.NavigationCommand.from_bytes
          ((cmd.raw_bytes.set 1 (cmd.raw_bytes.getD 1 0 ||| 0x40)).take 8 ++ [0, 0, 0, 1]
            ++ (cmd.raw_bytes.set 1 (cmd.raw_bytes.getD 1 0 ||| 0x40)).drop 12) := by
    unfold spec.regionPatchCommand
    rw [hoc, hsrc]
  refine ⟨{ raw_bytes := [b0, b1 ||| 0x40, b2, b3, b4, b5, b6, b7, 0, 0, 0, 1]
            command := cmd.command
            operand_count := .DestinationAndSource
            destination := cmd.destination
            source := .Immediate 1 }, ?_, rfl, rfl, rfl, hoc.symm⟩
  rw [hpatch, hraw]
  norm_num
  rw [hbuild]
  rw [hdest]
  norm_num
  simp only [hm.2.1, hm.2.2]
  refine ⟨trivial, ?_⟩
  rw [if_neg (by decide)]
  rfl

/-- Witness for C2 on a concrete Set-Move record whose source bytes
hold the PSR 20 reference `0x80000014`. -/
theorem region_override_yields_immediate_source_witness :
    ∃ cmd', spec.regionPatchCommand [0, 0, 0, 1]
        { raw_bytes := [0x50, 0, 0, 1, 0, 0, 0, 5, 0x80, 0, 0, 0x14]
          command := .Set .Move
          operand_count := .DestinationAndSource
          destination := .Gpr 5
          source := .Psr 20 } = some cmd'
      ∧ cmd'.source = .Immediate 1
      ∧ cmd'.destination = bluray.Operand.Gpr 5
      ∧ cmd'.command = bluray.Command.Set .Move
      ∧ cmd'.operand_count = bluray.OperandCount.DestinationAndSource :=
  region_override_yields_immediate_source 0x50 0 0 1 0 0 0 5 0x80 0 0 0x14 (by decide)
    { raw_bytes := [0x50, 0, 0, 1, 0, 0, 0, 5, 0x80, 0, 0, 0x14]
      command := .Set .Move
      operand_count := .DestinationAndSource
      destination := .Gpr 5
      source := .Psr 20 } (by decide) (by decide) (by decide)

theorem nopPatchCommands_get (c ci0 k : Nat) (cmds : List spec.NavigationCommand) :
    (spec.nopPatchCommands c ci0 cmds)[k]? =
      (cmds[k]?).map (fun command =>
        if ci0 + k = c
        then (spec.NavigationCommand.from_bytes spec.NOP_COMMAND_BYTES).getD command
        else command) := by
  induction cmds generalizing ci0 k with
  | nil => simp [spec.nopPatchCommands]
  | cons head tail ih =>
    cases k with
    | zero => simp [spec.nopPatchCommands]
    | succ k =>
      have hx : ci0 + 1 + k = ci0 + (k + 1) := by omega
      simp [spec.nopPatchCommands, ih (ci0 + 1) k, hx]

theorem nopPatchObjects_get (o c oi0 k : Nat) (objs : List spec.MovieObject) :
    (spec.nopPatchObjects o c oi0 objs)[k]? =
      (objs[k]?).map (fun obj =>
        if oi0 + k = o
        then { obj with navigation_commands := spec.nopPatchCommands c 0 obj.navigation_commands }
        else obj) := by
  induction objs generalizing oi0 k with
  | nil => simp [spec.nopPatchObjects]
  | cons head tail ih =>
    cases k with
    | zero => simp [spec.nopPatchObjects]
    | succ k =>
      have hx : oi0 + 1 + k = oi0 + (k + 1) := by omega
      simp [spec.nopPatchObjects, ih (oi0 + 1) k, hx]

theorem nopPatch_headers (o c oi0 : Nat) (objs : List spec.MovieObject) :
    (spec.nopPatchObjects o c oi0 objs).map spec.MovieObject.header
      = objs.map spec.MovieObject.header := by
  induction objs generalizing oi0 with
  | nil => rfl
  | cons head tail ih =>
    simp [spec.nopPatchObjects, ih, apply_ite spec.MovieObject.header]

/-- C8: the no-op patch at location `(o, c)` replaces exactly the
command at `(o, c)` with the decoded all-zero record — which is a
Branch-Nop with operand arity `None` — and leaves every other command
location and every per-object header unchanged. -/
theorem nop_patch_is_localized (objs : List spec.MovieObject) (o c oi ci : Nat) :
    spec.NavigationCommand.from_bytes spec.NOP_COMMAND_BYTES = some spec.nopCommand
  ∧ spec.nopCommand.command = .Branch .Nop
  ∧ spec.nopCommand.operand_count = .None
  ∧ ((oi, ci) ≠ (o, c) →
      spec.commandAt (spec.nopPatchObjects o c 0 objs) oi ci = spec.commandAt objs oi ci)
  ∧ ((spec.commandAt objs o c).isSome →
      spec.commandAt (spec.nopPatchObjects o c 0 objs) o c = some spec.nopCommand)
  ∧ (spec.nopPatchObjects o c 0 objs).map spec.MovieObject.header
      = objs.map spec.MovieObject.header := by
  have hnop : spec.NavigationCommand.from_bytes spec.NOP_COMMAND_BYTES
      = some spec.nopCommand := by decide
  refine ⟨hnop, rfl, rfl, ?_, ?_, nopPatch_headers o c 0 objs⟩
  · intro hne
    unfold spec.commandAt
    rw [nopPatchObjects_get]
    cases hobj : objs[oi]? with
    | none => rfl
    | some obj =>
      by_cases ho : oi = o
      · subst ho
        have hci : ci ≠ c := by
          intro hh
          exact hne (by rw [hh])
        simp [nopPatchCommands_get, hci]
      · simp [ho]
  · intro hs
    unfold spec.commandAt at hs ⊢
    rw [nopPatchObjects_get]
    cases hobj : objs[o]? with
    | none => rw [hobj] at hs; simp at hs
    | some obj =>
      rw [hobj] at hs
      simp at hs
      cases hcmd : obj.navigation_commands[c]? with
      | none => rw [hcmd] at hs; simp at hs
      | some command =>
        simp [nopPatchCommands_get, hcmd, hnop]

/-- Witness for C8 on a one-object table with two commands, patched at
`(0, 0)` and inspected at `(0, 1)`. -/
theorem nop_patch_is_localized_witness :
    spec.commandAt
        (spec.nopPatchObjects 0 0 0
          [{ header := [0, 0], navigation_commands := [spec.nopCommand, spec.nopCommand] }]) 0 1
      = spec.commandAt
          [{ header := [0, 0], navigation_commands := [spec.nopCommand, spec.nopCommand] }] 0 1
  ∧ spec.commandAt
        (spec.nopPatchObjects 0 0 0
          [{ header := [0, 0], navigation_commands := [spec.nopCommand, spec.nopCommand] }]) 0 0
      = some spec.nopCommand :=
  ⟨(nop_patch_is_localized
      [{ header := [0, 0], navigation_commands := [spec.nopCommand, spec.nopCommand] }]
      0 0 0 1).2.2.2.1 (by decide),
   (nop_patch_is_localized
      [{ header := [0, 0], navigation_commands := [spec.nopCommand, spec.nopCommand] }]
      0 0 0 0).2.2.2.2.1 (by decide)⟩
